import Mathlib

/-!
Shallow embedding of the lobby backend in src/main.py.

The module keeps the source's names: `RoomInfo` with its nested `Status`
enum and `__post_init__` hook, the module-level registries `user_list` and
`room_list` (gathered into a `ServerState` record so state passing is
explicit), the `asyncio.Event` named `room_list_modified` together with
`notify_modified`, and the four handlers `create_user`, `create_room`,
`get_room_list` and `enter_room`.

Python `int` is modelled as `Int`; list indexing `l[i]` (which wraps
negative indices and raises `IndexError` out of range) is modelled by
`pyIndex` returning an `Option`.  Each mutating handler returns, besides
its response value, the next state and the number of `notify_modified`
calls it performed, so notification behaviour is part of the embedding.
-/

namespace Backend

/-- Room status, from `RoomInfo.Status` (an `enum.IntEnum`). -/
inductive Status where
  | WAITING
  | RUNNING
deriving DecidableEq, Repr, Inhabited

/-- The integer value of a status: `WAITING = 0`, `RUNNING = 1`. -/
def Status.value : Status → Nat
  | .WAITING => 0
  | .RUNNING => 1

/-- Container of room information, from the dataclass `RoomInfo`. -/
structure RoomInfo where
  name : String
  owner_id : Int
  player_list : List Int
  status : Status
deriving DecidableEq, Repr, Inhabited

/-- The dataclass `__post_init__` hook: appends the owner to the player list. -/
def RoomInfo.post_init (r : RoomInfo) : RoomInfo :=
  { r with player_list := r.player_list ++ [r.owner_id] }

/-- Constructing `RoomInfo(name=name, owner_id=owner_id)`: the dataclass
fields default to `player_list = []` and `status = WAITING`, then
`__post_init__` runs. -/
def RoomInfo.make (name : String) (owner_id : Int) : RoomInfo :=
  RoomInfo.post_init { name := name, owner_id := owner_id, player_list := [], status := .WAITING }

/-- The module-level registries `user_list : list[str]` and
`room_list : list[RoomInfo]`, gathered into one record. -/
structure ServerState where
  user_list : List String
  room_list : List RoomInfo
deriving DecidableEq, Repr

/-- The state at process start: both registries empty. -/
def initState : ServerState := { user_list := [], room_list := [] }

/-- Python list indexing `l[i]`: a negative index wraps once from the end,
an index out of range raises `IndexError` (modelled as `none`). -/
def pyIndex {α : Type} (l : List α) (i : Int) : Option α :=
  if 0 ≤ i then l.get? i.toNat
  else if (-i).toNat ≤ l.length then l.get? (l.length - (-i).toNat)
  else none

/-- The `asyncio.Event` used as `room_list_modified`: a flag plus the set
of executions currently blocked in `wait`, identified by tokens. -/
structure AEvent where
  isSet : Bool
  waiters : List Nat
deriving DecidableEq, Repr

/-- The event at process start: not set, nobody waiting. -/
def AEvent.initial : AEvent := { isSet := false, waiters := [] }

/-- `Event.set()`: every execution currently blocked in `wait` is woken
(returned as the second component) and the flag becomes true. -/
def AEvent.set (e : AEvent) : AEvent × List Nat :=
  ({ isSet := true, waiters := [] }, e.waiters)

/-- `Event.clear()`: the flag becomes false; waiters are untouched. -/
def AEvent.clear (e : AEvent) : AEvent :=
  { e with isSet := false }

/-- `Event.wait()` by execution `who`: if the flag is set the call returns
immediately (second component `true`); otherwise `who` is added to the
waiters and the call blocks (second component `false`). -/
def AEvent.wait (e : AEvent) (who : Nat) : AEvent × Bool :=
  if e.isSet then (e, true) else ({ e with waiters := e.waiters ++ [who] }, false)

/-- `notify_modified(modified)`: calls `modified.set()` then
`modified.clear()` with no suspension point between them.  Returns the
resulting event and the list of woken executions. -/
def notify_modified (e : AEvent) : AEvent × List Nat :=
  let p := e.set
  (p.1.clear, p.2)

/-- Handler `create_user(name)`: appends the name to `user_list` and
returns `len(user_list) - 1`.  Third component: number of
`notify_modified` calls (this handler performs none). -/
def create_user (name : String) (s : ServerState) : Int × ServerState × Nat :=
  let s1 : ServerState := { s with user_list := s.user_list ++ [name] }
  ((s1.user_list.length : Int) - 1, s1, 0)

/-- Handler `create_room(name, user_id)`: returns `-1` if `user_id < 0` or
`user_id >= len(user_list)`; otherwise appends
`RoomInfo(name=name, owner_id=user_id)`, calls `notify_modified`, and
returns `len(room_list) - 1`. -/
def create_room (name : String) (user_id : Int) (s : ServerState) : Int × ServerState × Nat :=
  if user_id < 0 ∨ user_id ≥ (s.user_list.length : Int) then
    (-1, s, 0)
  else
    let s1 : ServerState := { s with room_list := s.room_list ++ [RoomInfo.make name user_id] }
    ((s1.room_list.length : Int) - 1, s1, 1)

/-- Handler `enter_room(room_id, user_id)`: returns `False` if `room_id`
is out of range, if `user_id` is out of range, or if the room's status is
`RUNNING`; otherwise returns `True`.  The function body performs no
mutation and no `notify_modified` call on any path. -/
def enter_room (room_id : Int) (user_id : Int) (s : ServerState) : Bool × ServerState × Nat :=
  if room_id < 0 ∨ room_id ≥ (s.room_list.length : Int) then
    (false, s, 0)
  else if user_id < 0 ∨ user_id ≥ (s.user_list.length : Int) then
    (false, s, 0)
  else
    let room := (pyIndex s.room_list room_id).getD default
    if room.status = Status.RUNNING then
      (false, s, 0)
    else
      (true, s, 0)

/-- One entry of the JSON list sent by `get_room_list`: the dictionary
with keys "name", "owner", "num_players", "status". -/
structure RoomSummary where
  name : String
  owner : String
  num_players : Nat
  status : Nat
deriving DecidableEq, Repr

/-- One element of the list comprehension in `get_room_list`: the lookup
`user_list[room.owner_id]` may raise `IndexError`, hence the `Option`. -/
def roomSummary (users : List String) (room : RoomInfo) : Option RoomSummary :=
  (pyIndex users room.owner_id).map fun ownerName =>
    { name := room.name
      owner := ownerName
      num_players := room.player_list.length
      status := room.status.value }

/-- The list comprehension `[{...} for room in room_list]`, evaluated left
to right; the first failing owner lookup aborts the whole build. -/
def buildSnapshotAux (users : List String) : List RoomInfo → Option (List RoomSummary)
  | [] => some []
  | r :: rs =>
    match roomSummary users r, buildSnapshotAux users rs with
    | some x, some xs => some (x :: xs)
    | _, _ => none

/-- The snapshot `data` built inside the `get_room_list` loop body. -/
def buildSnapshot (s : ServerState) : Option (List RoomSummary) :=
  buildSnapshotAux s.user_list s.room_list

/-- An observable action of the `get_room_list` loop: blocking on
`room_list_modified.wait()` or sending a snapshot over the socket. -/
inductive LoopAction where
  | wait
  | send (data : Option (List RoomSummary))
deriving DecidableEq, Repr

/-- The trace of the first `n` iterations of the `get_room_list` body
`while True: await room_list_modified.wait(); data = [...]; await
websocket.send_json(data)`: each iteration first waits, then builds the
snapshot from the registry state current at that wake (`states i` for
iteration `i`) and sends it. -/
def get_room_list_trace (states : Nat → ServerState) : Nat → List LoopAction
  | 0 => []
  | n + 1 =>
    LoopAction.wait :: LoopAction.send (buildSnapshot (states 0)) ::
      get_room_list_trace (fun i => states (i + 1)) n

/-- One boundary operation, for reachability over handler calls. -/
inductive Op where
  | createUser (name : String)
  | createRoom (name : String) (user_id : Int)
  | enterRoom (room_id : Int) (user_id : Int)

/-- The state after running one boundary operation. -/
def applyOp (s : ServerState) : Op → ServerState
  | .createUser n => (create_user n s).2.1
  | .createRoom n u => (create_room n u s).2.1
  | .enterRoom r u => (enter_room r u s).2.1

/-- The state after a sequence of boundary operations from `s`. -/
def runOps (s : ServerState) (ops : List Op) : ServerState :=
  ops.foldl applyOp s

/-- Every room's owner id indexes an existing user. -/
def ownersValid (s : ServerState) : Prop :=
  ∀ r ∈ s.room_list, 0 ≤ r.owner_id ∧ r.owner_id < (s.user_list.length : Int)

/-- The scenario state of the spec: users Alice (0) and Bob (1), and the
room "Lobby" created by Alice. -/
def demoState : ServerState :=
  { user_list := ["Alice", "Bob"], room_list := [RoomInfo.make "Lobby" 0] }

/-- A registry history that never changes: the demo state at every wake. -/
def constDemo : Nat → ServerState := fun _ => demoState

/-- Shared helper: `enter_room` returns the state unchanged and performs
zero `notify_modified` calls, on every path. -/
theorem enter_room_preserves (room_id user_id : Int) (s : ServerState) :
    (enter_room room_id user_id s).2.1 = s ∧ (enter_room room_id user_id s).2.2 = 0 := by
  unfold enter_room
  dsimp only
  repeat' split
  all_goals exact ⟨rfl, rfl⟩

/-- C1: the spec says a successful `EnterRoom` appends `user_id` to the
room's members.  In the code, `enter_room(0, 1)` on the demo state (user 1
valid, room 0 waiting) returns `True` yet performs no mutation: room 0's
player list is still `[0]`, user 1 was never appended. -/
theorem enter_room_success_no_append_bug :
    (enter_room 0 1 demoState).1 = true ∧
    (enter_room 0 1 demoState).2.1 = demoState ∧
    demoState.room_list.map RoomInfo.player_list = [[0]] := by decide

/-- C2: the spec says a successful `EnterRoom` triggers exactly one Change
Signal notification.  In the code, `enter_room(0, 1)` on the demo state
returns `True` but performs zero `notify_modified` calls. -/
theorem enter_room_success_no_notify_bug :
    (enter_room 0 1 demoState).1 = true ∧
    (enter_room 0 1 demoState).2.2 = 0 := by decide

/-- C5: `create_room` with a `user_id` that does not index an existing
user returns `-1`, leaves the whole state (in particular the room
sequence) unchanged, and performs zero `notify_modified` calls. -/
theorem create_room_invalid_user (name1 : String) (user_id : Int) (s : ServerState)
    (h : user_id < 0 ∨ user_id ≥ (s.user_list.length : Int)) :
    create_room name1 user_id s = (-1, s, 0) := by
  unfold create_room
  rw [if_pos h]

/-- C5 witness: the spec scenario, unregistered id 99 on the demo state. -/
theorem create_room_invalid_user_witness :
    create_room "Lobby2" 99 demoState = (-1, demoState, 0) :=
  create_room_invalid_user "Lobby2" 99 demoState (by decide)

/-- C6: `notify_modified` wakes exactly the executions currently blocked
in `wait` (each exactly once), leaves the event in the idle initial state,
a `wait` that begins strictly after it blocks, and that blocked waiter is
woken by the next `notify_modified` (not by the one that completed). -/
theorem notify_modified_broadcast_no_memory (e : AEvent) :
    (notify_modified e).2 = e.waiters ∧
    (∀ w, ((notify_modified e).2).count w = e.waiters.count w) ∧
    (notify_modified e).1 = AEvent.initial ∧
    (∀ who, ((notify_modified e).1.wait who).2 = false) ∧
    (∀ who, who ∈ (notify_modified (((notify_modified e).1.wait who).1)).2) := by
  refine ⟨rfl, fun w => rfl, rfl, fun who => rfl, fun who => ?_⟩
  simp [notify_modified, AEvent.set, AEvent.clear, AEvent.wait, AEvent.initial]

/-- C7: `create_room` with an existing `user_id` returns the previous
length of the room sequence and appends exactly one room whose player
list is `[user_id]` and whose status is `WAITING`, leaving the user
sequence unchanged and performing one `notify_modified` call. -/
theorem create_room_success_spec (name1 : String) (user_id : Int) (s : ServerState)
    (h1 : 0 ≤ user_id) (h2 : user_id < (s.user_list.length : Int)) :
    (create_room name1 user_id s).1 = (s.room_list.length : Int) ∧
    (create_room name1 user_id s).2.1.room_list =
      s.room_list ++ [⟨name1, user_id, [user_id], Status.WAITING⟩] ∧
    (create_room name1 user_id s).2.1.user_list = s.user_list ∧
    (create_room name1 user_id s).2.2 = 1 := by
  have hg : ¬(user_id < 0 ∨ user_id ≥ (s.user_list.length : Int)) := by
    simp only [not_or, not_lt, ge_iff_le, not_le]
    exact ⟨h1, h2⟩
  unfold create_room
  rw [if_neg hg]
  refine ⟨?_, rfl, rfl, rfl⟩
  simp

/-- C7 witness: Bob (id 1) creates a second room in the demo state. -/
theorem create_room_success_spec_witness :
    (create_room "Den" 1 demoState).1 = (demoState.room_list.length : Int) ∧
    (create_room "Den" 1 demoState).2.1.room_list =
      demoState.room_list ++ [⟨"Den", 1, [1], Status.WAITING⟩] ∧
    (create_room "Den" 1 demoState).2.1.user_list = demoState.user_list ∧
    (create_room "Den" 1 demoState).2.2 = 1 :=
  create_room_success_spec "Den" 1 demoState (by decide) (by decide)

/-- C9: `enter_room` leaves the entire process state unchanged on every
input, valid or not, successful or not: the registries (hence every
room's player list and status) are returned as they were, and zero
`notify_modified` calls touch the Change Signal. -/
theorem enter_room_frame (room_id user_id : Int) (s : ServerState) :
    (enter_room room_id user_id s).2.1 = s ∧ (enter_room room_id user_id s).2.2 = 0 :=
  enter_room_preserves room_id user_id s

/-- C3 counterexample: on the demo registry history, the first observable
action of the `get_room_list` loop is blocking in `wait`, not sending the
attach-time snapshot: no snapshot is sent before the first wait. -/
theorem broadcast_first_action_is_wait_cex :
    (get_room_list_trace constDemo 1).head? = some LoopAction.wait ∧
    (get_room_list_trace constDemo 1).head? ≠
      some (LoopAction.send (buildSnapshot demoState)) := by decide

/-- C3 amended: for every registry history and every positive number of
iterations, the `get_room_list` loop's first action is a `wait` on the
Change Signal; the first snapshot is built and sent only after the first
wake, from the registry state current at that wake. -/
theorem broadcast_waits_before_first_send (states : Nat → ServerState) (n : Nat)
    (h : 0 < n) :
    (get_room_list_trace states n).head? = some LoopAction.wait ∧
    get_room_list_trace states n =
      LoopAction.wait :: LoopAction.send (buildSnapshot (states 0)) ::
        get_room_list_trace (fun i => states (i + 1)) (n - 1) := by
  cases n with
  | zero => exact absurd h (lt_irrefl 0)
  | succ m => exact ⟨rfl, rfl⟩

/-- C3 witness: one iteration of the loop over the demo history. -/
theorem broadcast_waits_before_first_send_witness :
    0 < 1 ∧ (get_room_list_trace constDemo 1).head? = some LoopAction.wait :=
  ⟨by decide, (broadcast_waits_before_first_send constDemo 1 (by decide)).1⟩

/-- C4 counterexample: in the demo state user 0 is already a member of
room 0 (players `[0]`), yet `enter_room(0, 0)` returns `True`, not the
`False` the claim requires (the state is still left unchanged). -/
theorem enter_room_already_member_cex :
    demoState.room_list = [⟨"Lobby", 0, [0], Status.WAITING⟩] ∧
    enter_room 0 0 demoState = (true, demoState, 0) := by decide

/-- C4 amended: when `user_id` is already in the room's members but both
ids are valid and the room is `WAITING`, `enter_room` returns `true`
(the duplicate is not rejected) and leaves the members, and the whole
state, unchanged. -/
theorem enter_room_already_member_accepts (room_id user_id : Int) (s : ServerState)
    (room : RoomInfo)
    (h1 : 0 ≤ room_id) (h2 : room_id < (s.room_list.length : Int))
    (h3 : 0 ≤ user_id) (h4 : user_id < (s.user_list.length : Int))
    (h5 : pyIndex s.room_list room_id = some room)
    (_h6 : user_id ∈ room.player_list)
    (h7 : room.status = Status.WAITING) :
    (enter_room room_id user_id s).1 = true ∧
    (enter_room room_id user_id s).2.1 = s := by
  have hg1 : ¬(room_id < 0 ∨ room_id ≥ (s.room_list.length : Int)) := by
    simp only [not_or, not_lt, ge_iff_le, not_le]
    exact ⟨h1, h2⟩
  have hg2 : ¬(user_id < 0 ∨ user_id ≥ (s.user_list.length : Int)) := by
    simp only [not_or, not_lt, ge_iff_le, not_le]
    exact ⟨h3, h4⟩
  unfold enter_room
  rw [if_neg hg1, if_neg hg2, h5]
  dsimp only [Option.getD_some]
  rw [if_neg (by rw [h7]; decide)]
  exact ⟨rfl, rfl⟩

/-- C4 witness: user 0 re-entering room 0 in the demo state. -/
theorem enter_room_already_member_accepts_witness :
    (0 : Int) ∈ (⟨"Lobby", 0, [0], Status.WAITING⟩ : RoomInfo).player_list ∧
    (enter_room 0 0 demoState).1 = true ∧
    (enter_room 0 0 demoState).2.1 = demoState :=
  ⟨by decide, enter_room_already_member_accepts 0 0 demoState ⟨"Lobby", 0, [0], .WAITING⟩
    (by decide) (by decide) (by decide) (by decide) (by decide) (by decide) (by decide)⟩

/-- Shared helper: structure of a successful snapshot build, by induction
on the room list. -/
theorem buildSnapshotAux_spec (users : List String) :
    ∀ rooms l, buildSnapshotAux users rooms = some l →
      l.length = rooms.length ∧
      ∀ i room, rooms.get? i = some room →
        ∃ ownerName, pyIndex users room.owner_id = some ownerName ∧
          l.get? i = some { name := room.name, owner := ownerName,
                            num_players := room.player_list.length,
                            status := room.status.value } := by
  intro rooms
  induction rooms with
  | nil =>
    intro l h
    simp only [buildSnapshotAux, Option.some.injEq] at h
    subst h
    refine ⟨rfl, ?_⟩
    intro i room hi
    simp at hi
  | cons r rs ih =>
    intro l h
    unfold buildSnapshotAux at h
    cases hr : roomSummary users r <;> rw [hr] at h
    · exact Option.noConfusion h
    case some x =>
      cases haux : buildSnapshotAux users rs <;> rw [haux] at h
      · exact Option.noConfusion h
      case some xs =>
        simp only [Option.some.injEq] at h
        subst h
        obtain ⟨hlen, hget⟩ := ih xs haux
        obtain ⟨ownerName, hp, hx⟩ : ∃ ownerName,
            pyIndex users r.owner_id = some ownerName ∧
            x = { name := r.name, owner := ownerName,
                  num_players := r.player_list.length, status := r.status.value } := by
          unfold roomSummary at hr
          cases hp : pyIndex users r.owner_id <;> rw [hp] at hr
          · exact Option.noConfusion hr
          case some ownerName =>
            simp only [Option.map_some', Option.some.injEq] at hr
            exact ⟨ownerName, rfl, hr.symm⟩
        constructor
        · simp [hlen]
        · intro i room hi
          cases i with
          | zero =>
            simp only [List.get?_cons_zero, Option.some.injEq] at hi
            subst hi
            exact ⟨ownerName, hp, by simp [hx]⟩
          | succ j =>
            simp only [List.get?_cons_succ] at hi ⊢
            exact hget j room hi

/-- C8: a successfully built snapshot lists rooms in registry order (same
length, and the entry at each index comes from the room at that index),
with name copied, owner resolved through `user_list` by `owner_id`,
`num_players` the length of the player list, and status encoded with
`WAITING = 0` and `RUNNING = 1`. -/
theorem buildSnapshot_spec (s : ServerState) (l : List RoomSummary)
    (h : buildSnapshot s = some l) :
    Status.WAITING.value = 0 ∧ Status.RUNNING.value = 1 ∧
    l.length = s.room_list.length ∧
    ∀ i room, s.room_list.get? i = some room →
      ∃ ownerName, pyIndex s.user_list room.owner_id = some ownerName ∧
        l.get? i = some { name := room.name, owner := ownerName,
                          num_players := room.player_list.length,
                          status := room.status.value } := by
  obtain ⟨h1, h2⟩ := buildSnapshotAux_spec s.user_list s.room_list l h
  exact ⟨rfl, rfl, h1, h2⟩

/-- C8 witness: the demo state's snapshot, evaluated concretely. -/
theorem buildSnapshot_spec_witness :
    buildSnapshot demoState = some [⟨"Lobby", "Alice", 1, 0⟩] ∧
    ([⟨"Lobby", "Alice", 1, 0⟩] : List RoomSummary).length = demoState.room_list.length :=
  ⟨by decide, (buildSnapshot_spec demoState [⟨"Lobby", "Alice", 1, 0⟩] (by decide)).2.2.1⟩

/-- Shared helper: a list index that is in bounds makes `pyIndex` succeed. -/
theorem pyIndex_isSome_of_bounds {α : Type} (l : List α) (i : Int)
    (h1 : 0 ≤ i) (h2 : i < (l.length : Int)) : (pyIndex l i).isSome = true := by
  have ht : i.toNat < l.length := by omega
  unfold pyIndex
  rw [if_pos h1, List.get?_eq_get ht]
  rfl

/-- Shared helper: if every owner lookup succeeds, the snapshot build
succeeds. -/
theorem buildSnapshotAux_isSome (users : List String) :
    ∀ rooms : List RoomInfo,
      (∀ r ∈ rooms, (pyIndex users r.owner_id).isSome = true) →
      (buildSnapshotAux users rooms).isSome = true := by
  intro rooms
  induction rooms with
  | nil => intro _; rfl
  | cons r rs ih =>
    intro h
    have hr : (pyIndex users r.owner_id).isSome = true := h r (List.mem_cons_self r rs)
    have hrs : (buildSnapshotAux users rs).isSome = true := by
      exact ih fun x hx => h x (List.mem_cons_of_mem r hx)
    unfold buildSnapshotAux
    cases hp : pyIndex users r.owner_id
    · rw [hp] at hr; exact Bool.noConfusion hr
    case some ownerName =>
      cases haux : buildSnapshotAux users rs
      · rw [haux] at hrs; exact Bool.noConfusion hrs
      case some xs =>
        simp [roomSummary, hp]

/-- Shared helper: each boundary operation preserves owner validity. -/
theorem ownersValid_applyOp (s : ServerState) (op : Op) (h : ownersValid s) :
    ownersValid (applyOp s op) := by
  cases op with
  | createUser n =>
    intro r hr
    obtain ⟨ha, hb⟩ := h r hr
    refine ⟨ha, ?_⟩
    have : ((create_user n s).2.1.user_list.length : Int) =
        (s.user_list.length : Int) + 1 := by
      simp [create_user]
    rw [applyOp]
    rw [this]
    omega
  | createRoom n u =>
    rw [applyOp]
    by_cases hg : u < 0 ∨ u ≥ (s.user_list.length : Int)
    · unfold create_room
      rw [if_pos hg]
      exact h
    · unfold create_room
      rw [if_neg hg]
      intro r hr
      simp only [List.mem_append, List.mem_singleton] at hr
      cases hr with
      | inl hmem => exact h r hmem
      | inr heq =>
        subst heq
        simp only [not_or, not_lt, ge_iff_le, not_le] at hg
        exact hg
  | enterRoom rid uid =>
    rw [applyOp, (enter_room_preserves rid uid s).1]
    exact h

/-- Shared helper: owner validity holds after any operation sequence. -/
theorem ownersValid_runOps (ops : List Op) :
    ∀ s : ServerState, ownersValid s → ownersValid (runOps s ops) := by
  induction ops with
  | nil => intro s h; exact h
  | cons op rest ih =>
    intro s h
    exact ih (applyOp s op) (ownersValid_applyOp s op h)

/-- C10: in every state reachable from the initial state by `create_user`,
`create_room` and `enter_room` calls, every room's `owner_id` indexes an
existing user, so the unguarded owner lookup of the broadcast loop never
goes out of bounds and the snapshot build always succeeds. -/
theorem reachable_owner_lookup_safe (ops : List Op) :
    ownersValid (runOps initState ops) ∧
    (buildSnapshot (runOps initState ops)).isSome = true := by
  have hv : ownersValid (runOps initState ops) := by
    refine ownersValid_runOps ops initState ?_
    intro r hr
    simp [initState] at hr
  refine ⟨hv, ?_⟩
  refine buildSnapshotAux_isSome _ _ ?_
  intro r hr
  obtain ⟨ha, hb⟩ := hv r hr
  exact pyIndex_isSome_of_bounds _ _ ha hb

end Backend
